import Mathlib

/-!
Shallow embedding of `src/py_threadpool/threadpool_translate.py`.

The module has two functions:

* `translate_text(text, source_lang, target_lang, model_id)` builds a prompt,
  calls `bedrock_runtime.invoke_model`, parses the JSON body, and reads the
  value at the fixed path `response_body["output"]["message"]["content"]`.
  Everything from the remote call to the success log line sits inside one
  `try`; any exception is caught and the function returns the plain string
  `f"Translation error: {e}"`.

* `parallel_translate(texts, source_lang, target_lang, max_workers)` opens a
  `ThreadPoolExecutor(max_workers=max_workers)` (whose constructor raises
  `ValueError("max_workers must be greater than 0")` when `max_workers <= 0`,
  before anything is submitted), submits one `translate_text` job per input
  text, keeps the dict `future_to_text = {future: text}`, drains the futures
  with `as_completed`, and appends `future.result()` on success or
  `f"Error for \x7boriginal_text\x7d: \x7bexc\x7d"` when collecting a job raised.

The embedding makes the two sources of nondeterminism explicit parameters:

* `beh : Nat → JobExec` gives, for the job submitted at position `i` of the
  input list, what its execution does (runs `translate_text` against a given
  remote-call behaviour, or raises unexpectedly at the collection point);
* `order : List Nat` is the completion order in which `as_completed` yields
  the futures; theorems assume it is a permutation of the submission indices
  `List.range texts.length`, which is exactly what `as_completed` guarantees
  (every submitted future is yielded once).

`executor.submit` returns a fresh `Future` object on every call, so futures
are modelled by their submission index; the dict `future_to_text` becomes an
association list keyed by those indices.
-/

namespace ThreadpoolTranslate

/-- Values produced by `json.loads`: the parsed response body. -/
inductive Json where
  | null : Json
  | str : String → Json
  | num : Int → Json
  | arr : List Json → Json
  | obj : List (String × Json) → Json

/-- Outcome of `bedrock_runtime.invoke_model` together with reading and
parsing the body: either a parsed JSON body, or an exception (transport
error, non-JSON body, ...) whose `str(e)` is the given message. -/
inductive RemoteResult where
  | ok : Json → RemoteResult
  | exn : String → RemoteResult

/-- Python dict lookup on a parsed JSON object: `json.loads` keeps the last
binding of a repeated key, so the last matching entry wins. -/
def lookupField : List (String × Json) → String → Option Json
  | [], _ => none
  | (k, v) :: rest, key =>
    match lookupField rest key with
    | some r => some r
    | none => if k == key then some v else none

/-- One Python subscript step `j[k]`: a `KeyError` (whose `str` is the quoted
key) when the key is missing, a `TypeError` when the value is not a dict. -/
def getKey (j : Json) (k : String) : Except String Json :=
  match j with
  | .obj fields =>
    match lookupField fields k with
    | some v => .ok v
    | none => .error ("\x27" ++ k ++ "\x27")
  | _ => .error "object is not subscriptable"

/-- The fixed nested path `response_body["output"]["message"]["content"]`
(line 59 of the source). -/
def extractContent (body : Json) : Except String Json :=
  match getKey body "output" with
  | .error e => .error e
  | .ok o =>
    match getKey o "message" with
    | .error e => .error e
    | .ok m => getKey m "content"

/-- Whether the Python value supports `v[:30]`: strings and lists do, other
JSON values raise a `TypeError` when sliced. The success log line at line 60
slices `translated_text[:30]` inside the `try`, so a non-sliceable value at
the path turns into a failure outcome. -/
def sliceable : Json → Bool
  | .str _ => true
  | .arr _ => true
  | _ => false

/-- `str(e)` of the `TypeError` raised by slicing a non-sliceable value. -/
def sliceErrMsg : Json → String
  | .obj _ => "unhashable type: \x27slice\x27"
  | .null => "\x27NoneType\x27 object is not subscriptable"
  | _ => "object is not subscriptable"

/-- `translate_text` (lines 29-64). The prompt mentions `text`, but given a
fixed remote-call behaviour the returned value never does: on success it is
the value at the fixed path (provided the success log line can slice it), and
on any exception it is the plain string `"Translation error: " ++ str(e)`.
The function catches every exception, so it is total. -/
def translate_text (text : String) (remote : RemoteResult) : Json :=
  match remote with
  | .exn msg => .str ("Translation error: " ++ msg)
  | .ok body =>
    match extractContent body with
    | .error e => .str ("Translation error: " ++ e)
    | .ok v =>
      if sliceable v then v
      else .str ("Translation error: " ++ sliceErrMsg v)

/-- The remote-call behaviours that make `translate_text` take its `except`
path: the call raised, the body lacks the fixed path, or the value at the
path cannot be sliced by the success log line. -/
def remoteCallFails (remote : RemoteResult) : Bool :=
  match remote with
  | .exn _ => true
  | .ok body =>
    match extractContent body with
    | .error _ => true
    | .ok v => !sliceable v

/-- What the job submitted for one text does inside the pool: either it runs
`translate_text` to completion against a given remote-call behaviour (the
only thing the code itself can do, since `translate_text` catches all
exceptions), or — the unexpected case the dispatcher guards against — its
`future.result()` raises with the given message. -/
inductive JobExec where
  | completes : RemoteResult → JobExec
  | crashes : String → JobExec

/-- Association list pairing submission indices `k, k+1, ...` with the texts
of a list. -/
def assocFrom : Nat → List String → List (Nat × String)
  | _, [] => []
  | k, t :: ts => (k, t) :: assocFrom (k + 1) ts

/-- The dict `future_to_text = {executor.submit(translate_text, text, ...):
text for text in texts}` (line 76): `executor.submit` returns a fresh future
per call, so the keys are the submission indices `0, ..., texts.length - 1`
and the dict never merges two occurrences of the same text. -/
def future_to_text (texts : List String) : List (Nat × String) :=
  assocFrom 0 texts

/-- `future.result()` for the job at submission index `i`: the value
`translate_text` returned, or the exception the job raised. -/
def runJob (texts : List String) (beh : Nat → JobExec) (i : Nat) :
    Except String Json :=
  match beh i with
  | .completes remote => .ok (translate_text (texts.getD i "") remote)
  | .crashes msg => .error msg

/-- The body of the `as_completed` loop (lines 80-87) for the future with
submission index `i`: look the original text up in `future_to_text`, then
append `future.result()` or, when it raises, the synthesized string
`"Error for \x27" ++ original_text ++ "\x27: " ++ str(exc)`. -/
def collectOne (texts : List String) (beh : Nat → JobExec) (i : Nat) : Json :=
  let original := ((future_to_text texts).lookup i).getD ""
  match runJob texts beh i with
  | .ok v => v
  | .error exc => .str ("Error for \x27" ++ original ++ "\x27: " ++ exc)

/-- `parallel_translate` (lines 66-89). `ThreadPoolExecutor.__init__` raises
`ValueError("max_workers must be greater than 0")` when `max_workers ≤ 0`,
before the submitting dict comprehension runs; otherwise every job is
submitted, `as_completed` yields the futures in completion `order`, and the
loop appends one outcome per yielded future. -/
def parallel_translate (texts : List String) (beh : Nat → JobExec)
    (order : List Nat) (max_workers : Int) : Except String (List Json) :=
  if max_workers ≤ 0 then .error "max_workers must be greater than 0"
  else .ok (order.map (collectOne texts beh))

/-- How many jobs `parallel_translate` submits to the pool: none when the
executor constructor rejects `max_workers`, one per input text otherwise. -/
def submittedCount (texts : List String) (max_workers : Int) : Nat :=
  if max_workers ≤ 0 then 0 else texts.length

/-- How many `translate_text` invocations (hence `invoke_model` calls) the
batch performs: one per job that runs `translate_text` to completion, none
when the executor constructor rejects `max_workers`. -/
def remoteCallCount (beh : Nat → JobExec) (order : List Nat)
    (max_workers : Int) : Nat :=
  if max_workers ≤ 0 then 0
  else (order.filter fun i =>
    match beh i with
    | .completes _ => true
    | .crashes _ => false).length

/-- Does the list of characters start with the given list? -/
def startsWith : List Char → List Char → Bool
  | _, [] => true
  | [], _ :: _ => false
  | a :: as, b :: bs => a == b && startsWith as bs

/-- Does the list of characters contain the given list as a contiguous run? -/
def listContains : List Char → List Char → Bool
  | _, [] => true
  | [], _ :: _ => false
  | h :: t, needle => startsWith (h :: t) needle || listContains t needle

/-- Substring test: does `hay` contain `needle`? Used to state whether an
outcome string references an original input text. -/
def strContains (hay needle : String) : Bool :=
  listContains hay.toList needle.toList

/-- A well-formed response body: the envelope shape the source expects, with
the given string at the fixed path `output.message.content`. -/
def novaBody (s : String) : Json :=
  Json.obj [("output", Json.obj [("message", Json.obj [("content", Json.str s)])])]

/-- Concrete job behaviour: every remote call raises with message `"x"`. -/
def allExn : Nat → JobExec := fun _ => .completes (.exn "x")

/-- Concrete job behaviour: the job at index 0 raises unexpectedly at the
collection point; every other job completes with a raising remote call. -/
def crashAt0 : Nat → JobExec
  | 0 => .crashes "boom"
  | _ => .completes (.exn "x")

/-! ## Helper lemmas about the future-to-text association -/

theorem assocFrom_lookup (ts : List String) (k i : Nat) (h : i < ts.length) :
    (assocFrom k ts).lookup (k + i) = some (ts.getD i "") := by
  induction ts generalizing k i with
  | nil => simp at h
  | cons t ts ih =>
    cases i with
    | zero => simp [assocFrom, List.lookup]
    | succ j =>
      have hne : (k + (j + 1) == k) = false := by
        simp only [beq_eq_false_iff_ne, ne_eq]
        omega
      simp only [assocFrom, List.lookup, hne]
      have hkj : k + (j + 1) = k + 1 + j := by omega
      rw [hkj]
      have hj : j < ts.length := by
        simpa [Nat.succ_lt_succ_iff] using h
      simpa using ih (k + 1) j hj

theorem future_to_text_lookup (ts : List String) (i : Nat)
    (h : i < ts.length) :
    (future_to_text ts).lookup i = some (ts.getD i "") := by
  simpa [future_to_text] using assocFrom_lookup ts 0 i h

theorem assocFrom_keys (ts : List String) (k : Nat) :
    (assocFrom k ts).map Prod.fst = List.range' k ts.length := by
  induction ts generalizing k with
  | nil => simp [assocFrom]
  | cons t ts ih =>
    simp [assocFrom, List.range'_succ k ts.length 1, ih]

theorem collectOne_crashes (texts : List String) (beh : Nat → JobExec)
    (i : Nat) (msg : String) (hi : i < texts.length)
    (hbeh : beh i = JobExec.crashes msg) :
    collectOne texts beh i =
      Json.str ("Error for \x27" ++ texts.getD i "" ++ "\x27: " ++ msg) := by
  simp [collectOne, runJob, hbeh, future_to_text_lookup texts i hi]

theorem collectOne_completes (texts : List String) (beh : Nat → JobExec)
    (i : Nat) (remote : RemoteResult)
    (hbeh : beh i = JobExec.completes remote) :
    collectOne texts beh i = translate_text (texts.getD i "") remote := by
  simp [collectOne, runJob, hbeh]

/-! ## Claim theorems -/

/-- C1: for every input list of length N, every `max_workers ≥ 1`, and every
completion order of the submitted futures, `parallel_translate` returns a
list of exactly N outcomes — the result is a permutation of the per-job
outcomes taken in submission order, so each submitted job contributes
exactly one entry: no job dropped, none duplicated. -/
theorem parallel_translate_one_outcome_per_job
    (texts : List String) (beh : Nat → JobExec) (order : List Nat)
    (max_workers : Int) (hw : 1 ≤ max_workers)
    (hord : List.Perm order (List.range texts.length)) :
    parallel_translate texts beh order max_workers =
      Except.ok (order.map (collectOne texts beh)) ∧
    (order.map (collectOne texts beh)).length = texts.length ∧
    List.Perm (order.map (collectOne texts beh))
      ((List.range texts.length).map (collectOne texts beh)) := by
  refine ⟨?_, ?_, ?_⟩
  · simp [parallel_translate, show ¬ max_workers ≤ 0 by omega]
  · rw [List.length_map, hord.length_eq, List.length_range]
  · exact hord.map _

/-- Witness for C1 at texts `["a", "b"]`, completion order `[1, 0]`,
`max_workers = 2`. -/
theorem parallel_translate_one_outcome_per_job_witness :
    parallel_translate ["a", "b"] allExn [1, 0] 2 =
      Except.ok ([1, 0].map (collectOne ["a", "b"] allExn)) ∧
    ([1, 0].map (collectOne ["a", "b"] allExn)).length =
      (["a", "b"] : List String).length ∧
    List.Perm ([1, 0].map (collectOne ["a", "b"] allExn))
      ((List.range (["a", "b"] : List String).length).map
        (collectOne ["a", "b"] allExn)) :=
  parallel_translate_one_outcome_per_job ["a", "b"] allExn [1, 0] 2
    (by decide) (by decide)

/-- C2 counterexample: a job whose remote call raises a transport error gets
the outcome string `"Translation error: " ++ str(e)`, which does not
reference the original input text — for input `"Hello"` and a timeout, the
outcome does not contain `"Hello"` anywhere. -/
theorem translate_text_failure_omits_input_text :
    translate_text "Hello"
        (RemoteResult.exn "Read timeout on endpoint URL") =
      Json.str "Translation error: Read timeout on endpoint URL" ∧
    strContains "Translation error: Read timeout on endpoint URL" "Hello" =
      false :=
  ⟨rfl, by decide⟩

/-- C2 amended: for every job whose remote call raises or returns a
malformed body, the outcome is the failure string
`"Translation error: " ++ reason` where the reason comes from the exception
alone; the outcome is the same whatever the original input text, so it does
not reference that text (the text appears only in the log line). -/
theorem translate_text_failure_reason_only
    (text other : String) (remote : RemoteResult)
    (h : remoteCallFails remote = true) :
    ∃ reason,
      translate_text text remote =
        Json.str ("Translation error: " ++ reason) ∧
      translate_text other remote = translate_text text remote := by
  cases remote with
  | exn msg => exact ⟨msg, rfl, rfl⟩
  | ok body =>
    simp only [remoteCallFails] at h
    cases hec : extractContent body with
    | error e =>
      exact ⟨e, by simp [translate_text, hec], by simp [translate_text]⟩
    | ok v =>
      rw [hec] at h
      have hs : sliceable v = false := by simpa using h
      exact ⟨sliceErrMsg v, by simp [translate_text, hec, hs],
        by simp [translate_text]⟩

/-- Witness for the amended C2 at input `"Hello"` and a raising remote
call. -/
theorem translate_text_failure_reason_only_witness :
    remoteCallFails (RemoteResult.exn "timeout") = true ∧
    ∃ reason,
      translate_text "Hello" (RemoteResult.exn "timeout") =
        Json.str ("Translation error: " ++ reason) ∧
      translate_text "World" (RemoteResult.exn "timeout") =
        translate_text "Hello" (RemoteResult.exn "timeout") :=
  ⟨rfl, translate_text_failure_reason_only "Hello" "World"
    (RemoteResult.exn "timeout") rfl⟩

/-- C3: `translate_text` always returns an outcome — for every input text
and every remote-call behaviour, the result is either the payload the
well-formed response carries at the fixed path, or a failure string
`"Translation error: " ++ reason` with a human-readable reason; no
exception escapes the boundary. -/
theorem translate_text_total_outcome (text : String)
    (remote : RemoteResult) :
    (∃ body v, remote = RemoteResult.ok body ∧
      extractContent body = Except.ok v ∧ sliceable v = true ∧
      translate_text text remote = v) ∨
    (∃ reason,
      translate_text text remote =
        Json.str ("Translation error: " ++ reason)) := by
  cases remote with
  | exn msg => exact Or.inr ⟨msg, rfl⟩
  | ok body =>
    cases hec : extractContent body with
    | error e => exact Or.inr ⟨e, by simp [translate_text, hec]⟩
    | ok v =>
      cases hs : sliceable v with
      | true =>
        exact Or.inl ⟨body, v, rfl, hec, hs, by simp [translate_text, hec, hs]⟩
      | false =>
        exact Or.inr ⟨sliceErrMsg v, by simp [translate_text, hec, hs]⟩

/-- C4: when the remote call succeeds with a well-formed envelope — the
fixed path `output.message.content` holds the generated text — the outcome
is exactly that text. -/
theorem translate_text_success_payload (text : String) (body : Json)
    (s : String) (h : extractContent body = Except.ok (Json.str s)) :
    translate_text text (RemoteResult.ok body) = Json.str s := by
  simp [translate_text, h, sliceable]

/-- Witness for C4: a concrete well-formed response body whose fixed path
holds the ja greeting. -/
theorem translate_text_success_payload_witness :
    extractContent (novaBody "こんにちは") = Except.ok (Json.str "こんにちは") ∧
    translate_text "Hello" (RemoteResult.ok (novaBody "こんにちは")) =
      Json.str "こんにちは" :=
  ⟨rfl, translate_text_success_payload "Hello" (novaBody "こんにちは")
    "こんにちは" rfl⟩

/-- C5: when the job at submission index `i` raises unexpectedly inside the
pool, the dispatcher catches the exception at `future.result()`, synthesizes
a failure outcome naming the correct original text (looked up through
`future_to_text`), and the remaining jobs still each produce their entry:
the batch completes with one outcome per input. -/
theorem parallel_translate_crash_synthesizes_failure
    (texts : List String) (beh : Nat → JobExec) (order : List Nat)
    (max_workers : Int) (i : Nat) (msg : String)
    (hw : 1 ≤ max_workers)
    (hord : List.Perm order (List.range texts.length))
    (hi : i < texts.length) (hbeh : beh i = JobExec.crashes msg) :
    parallel_translate texts beh order max_workers =
      Except.ok (order.map (collectOne texts beh)) ∧
    Json.str ("Error for \x27" ++ texts.getD i "" ++ "\x27: " ++ msg) ∈
      order.map (collectOne texts beh) ∧
    (order.map (collectOne texts beh)).length = texts.length := by
  refine ⟨?_, ?_, ?_⟩
  · simp [parallel_translate, show ¬ max_workers ≤ 0 by omega]
  · have hmem : i ∈ order := hord.mem_iff.mpr (List.mem_range.mpr hi)
    have hmap := List.mem_map_of_mem (collectOne texts beh) hmem
    rwa [collectOne_crashes texts beh i msg hi hbeh] at hmap
  · rw [List.length_map, hord.length_eq, List.length_range]

/-- Witness for C5: two texts, job 0 crashes with `"boom"`, job 1 completes;
the synthesized failure names `"Hello"`. -/
theorem parallel_translate_crash_synthesizes_failure_witness :
    parallel_translate ["Hello", "World"] crashAt0 [0, 1] 1 =
      Except.ok ([0, 1].map (collectOne ["Hello", "World"] crashAt0)) ∧
    Json.str ("Error for \x27" ++ (["Hello", "World"] : List String).getD 0 "" ++
        "\x27: " ++ "boom") ∈
      [0, 1].map (collectOne ["Hello", "World"] crashAt0) ∧
    ([0, 1].map (collectOne ["Hello", "World"] crashAt0)).length =
      (["Hello", "World"] : List String).length :=
  parallel_translate_crash_synthesizes_failure ["Hello", "World"] crashAt0
    [0, 1] 1 0 "boom" (by decide) (by decide) (by decide) rfl

/-- C6: `max_workers` never changes the outcomes. For any two valid worker
counts and any two completion orders, the two runs succeed and the two
result lists are permutations of each other — the same multiset of
outcomes, worker count and interleaving affecting only the order. -/
theorem parallel_translate_workers_immaterial
    (texts : List String) (beh : Nat → JobExec)
    (order₁ order₂ : List Nat) (w₁ w₂ : Int)
    (hw₁ : 1 ≤ w₁) (hw₂ : 1 ≤ w₂)
    (ho₁ : List.Perm order₁ (List.range texts.length))
    (ho₂ : List.Perm order₂ (List.range texts.length)) :
    parallel_translate texts beh order₁ w₁ =
      Except.ok (order₁.map (collectOne texts beh)) ∧
    parallel_translate texts beh order₂ w₂ =
      Except.ok (order₂.map (collectOne texts beh)) ∧
    List.Perm (order₁.map (collectOne texts beh))
      (order₂.map (collectOne texts beh)) := by
  refine ⟨?_, ?_, ?_⟩
  · simp [parallel_translate, show ¬ w₁ ≤ 0 by omega]
  · simp [parallel_translate, show ¬ w₂ ≤ 0 by omega]
  · exact (ho₁.map _).trans (ho₂.map _).symm

/-- Witness for C6: sequential run (one worker, submission order) against a
two-worker run that completed in reverse order. -/
theorem parallel_translate_workers_immaterial_witness :
    parallel_translate ["a", "b"] allExn [0, 1] 1 =
      Except.ok ([0, 1].map (collectOne ["a", "b"] allExn)) ∧
    parallel_translate ["a", "b"] allExn [1, 0] 2 =
      Except.ok ([1, 0].map (collectOne ["a", "b"] allExn)) ∧
    List.Perm ([0, 1].map (collectOne ["a", "b"] allExn))
      ([1, 0].map (collectOne ["a", "b"] allExn)) :=
  parallel_translate_workers_immaterial ["a", "b"] allExn [0, 1] [1, 0] 1 2
    (by decide) (by decide) (by decide) (by decide)

/-- C7: `max_workers ≤ 0` makes the executor constructor reject the batch
before any job is submitted and before any remote call is made — and this
precondition violation is the only way the batch fails as a whole: for every
`max_workers ≥ 1` the run returns a result list. -/
theorem parallel_translate_invalid_workers
    (texts : List String) (beh : Nat → JobExec) (order : List Nat)
    (max_workers : Int) :
    (max_workers ≤ 0 →
      parallel_translate texts beh order max_workers =
        Except.error "max_workers must be greater than 0" ∧
      submittedCount texts max_workers = 0 ∧
      remoteCallCount beh order max_workers = 0) ∧
    (1 ≤ max_workers →
      parallel_translate texts beh order max_workers =
        Except.ok (order.map (collectOne texts beh))) := by
  constructor
  · intro h
    refine ⟨?_, ?_, ?_⟩ <;>
      simp [parallel_translate, submittedCount, remoteCallCount, h]
  · intro h
    simp [parallel_translate, show ¬ max_workers ≤ 0 by omega]

/-- Witness for C7 at `max_workers = 0`: rejected, nothing submitted, no
remote call. -/
theorem parallel_translate_invalid_workers_witness :
    parallel_translate ["Hello"] allExn [0] 0 =
      Except.error "max_workers must be greater than 0" ∧
    submittedCount ["Hello"] 0 = 0 ∧
    remoteCallCount allExn [0] 0 = 0 :=
  (parallel_translate_invalid_workers ["Hello"] allExn [0] 0).1 (by decide)

/-- C8: the empty input list yields the empty output list and no
`translate_text` (hence no remote) call is made: with nothing submitted,
`as_completed` yields nothing. -/
theorem parallel_translate_empty_input
    (beh : Nat → JobExec) (order : List Nat) (max_workers : Int)
    (hw : 1 ≤ max_workers)
    (hord : List.Perm order (List.range ([] : List String).length)) :
    parallel_translate [] beh order max_workers = Except.ok [] ∧
    remoteCallCount beh order max_workers = 0 := by
  have horder : order = [] := by simpa using hord
  subst horder
  constructor
  · simp [parallel_translate, show ¬ max_workers ≤ 0 by omega]
  · simp [remoteCallCount]

/-- Witness for C8 at `max_workers = 5`. -/
theorem parallel_translate_empty_input_witness :
    parallel_translate [] allExn [] 5 = Except.ok [] ∧
    remoteCallCount allExn [] 5 = 0 :=
  parallel_translate_empty_input allExn [] 5 (by decide) (by decide)

/-- C9: with duplicate texts in the input, the association dict still holds
one entry per submission — its keys (the futures, one fresh per submit) are
pairwise distinct and each maps to the text submitted at that position — so
every occurrence yields its own outcome and the result still has one entry
per input. -/
theorem parallel_translate_duplicate_texts
    (texts : List String) (beh : Nat → JobExec) (order : List Nat)
    (max_workers : Int)
    (hdup : ∃ i j, i < texts.length ∧ j < texts.length ∧ i ≠ j ∧
      texts.getD i "" = texts.getD j "")
    (hw : 1 ≤ max_workers)
    (hord : List.Perm order (List.range texts.length)) :
    (future_to_text texts).length = texts.length ∧
    ((future_to_text texts).map Prod.fst).Nodup ∧
    (∀ i, i < texts.length →
      (future_to_text texts).lookup i = some (texts.getD i "")) ∧
    parallel_translate texts beh order max_workers =
      Except.ok (order.map (collectOne texts beh)) ∧
    (order.map (collectOne texts beh)).length = texts.length := by
  refine ⟨?_, ?_, ?_, ?_, ?_⟩
  · have hkeys := congrArg List.length (assocFrom_keys texts 0)
    simpa [future_to_text, List.length_range' 0 1 texts.length] using hkeys
  · rw [future_to_text, assocFrom_keys texts 0]
    exact List.nodup_range' 0 texts.length 1 Nat.one_pos
  · exact fun i hi => future_to_text_lookup texts i hi
  · simp [parallel_translate, show ¬ max_workers ≤ 0 by omega]
  · rw [List.length_map, hord.length_eq, List.length_range]

/-- Witness for C9: the input `["dup", "dup"]` repeats one text; both
occurrences keep their own dict entry and their own outcome. -/
theorem parallel_translate_duplicate_texts_witness :
    (future_to_text ["dup", "dup"]).length =
      (["dup", "dup"] : List String).length ∧
    ((future_to_text ["dup", "dup"]).map Prod.fst).Nodup ∧
    (∀ i, i < (["dup", "dup"] : List String).length →
      (future_to_text ["dup", "dup"]).lookup i =
        some ((["dup", "dup"] : List String).getD i "")) ∧
    parallel_translate ["dup", "dup"] allExn [1, 0] 3 =
      Except.ok ([1, 0].map (collectOne ["dup", "dup"] allExn)) ∧
    ([1, 0].map (collectOne ["dup", "dup"] allExn)).length =
      (["dup", "dup"] : List String).length :=
  parallel_translate_duplicate_texts ["dup", "dup"] allExn [1, 0] 3
    ⟨0, 1, by decide, by decide, by decide, rfl⟩ (by decide) (by decide)

/-- C10: success and failure share one plain-string channel with no
discriminator. A genuine translation whose text is
`"Translation error: boom"` is literally equal to the outcome of a job
whose remote call raised `boom`, and a genuine translation reading
`"Error for \x27Hello\x27: boom"` is literally equal to the outcome the
dispatcher synthesizes when the job for `"Hello"` crashes with `boom` —
failures are indistinguishable from translations at the public interface. -/
theorem outcome_string_collision :
    translate_text "Hi"
        (RemoteResult.ok (novaBody "Translation error: boom")) =
      translate_text "Hello" (RemoteResult.exn "boom") ∧
    collectOne ["X"]
        (fun _ => JobExec.completes
          (RemoteResult.ok (novaBody "Error for \x27Hello\x27: boom"))) 0 =
      collectOne ["Hello"] (fun _ => JobExec.crashes "boom") 0 :=
  ⟨rfl, rfl⟩

end ThreadpoolTranslate
